import Mathlib

/-!
Verification of the open-meteo current-weather SDK (Go) against its
natural-language specification, via a shallow embedding of the source
files `client.go`, `errors.go` and `weather.go`.

Modelling conventions:
* Go `float64` is modelled by `GoFloat`: an exact rational for every finite
  double, plus the special values NaN, +Inf and -Inf.  IEEE comparisons on
  NaN are always false, which the model mirrors.  Every finite double is a
  dyadic rational, so quantifying over rationals covers all finite doubles.
* Go channels/semaphores become an explicit slot counter threaded through
  the call; select-statement nondeterminism (both the semaphore send and
  `ctx.Done()` ready) is resolved by an oracle bit in the environment.
* Network effects (transport outcome, HTTP status, body, JSON decode
  result) are an explicit environment consumed where the code would
  perform I/O.
* `time.Time` is modelled by the wall-clock fields the layout
  `2006-01-02T15:04` can produce; a parsed zoneless value is already UTC in
  Go, so the model carries no zone.
-/

/-- Model of Go `float64`: NaN, the two infinities, and exact finite values. -/
inductive GoFloat where
  | nan : GoFloat
  | inf : GoFloat
  | negInf : GoFloat
  | val : ℚ → GoFloat
deriving DecidableEq

/-- IEEE-754 `<` on doubles: any comparison with NaN is false. -/
def GoFloat.lt : GoFloat → GoFloat → Bool
  | .nan, _ => false
  | _, .nan => false
  | _, .negInf => false
  | .negInf, _ => true
  | .inf, _ => false
  | _, .inf => true
  | .val a, .val b => decide (a < b)

/-- IEEE-754 `>` on doubles. -/
def GoFloat.gt (a b : GoFloat) : Bool := GoFloat.lt b a

/-- `ErrorType` from `errors.go`: the three error classifications. -/
inductive ErrorType where
  | validation : ErrorType
  | network : ErrorType
  | api : ErrorType
deriving DecidableEq

/-- Non-SDK Go error values that can appear as causes or be returned raw:
the two context errors and arbitrary other errors (transport, JSON, ...). -/
inductive GoErr where
  | ctxCanceled : GoErr
  | ctxDeadline : GoErr
  | other : String → GoErr
deriving DecidableEq

/-- The SDK's `Error` struct from `errors.go`: classification, message,
optional wrapped cause. -/
structure SdkError where
  type : ErrorType
  message : String
  cause : Option GoErr
deriving DecidableEq

/-- An error value returned by `GetCurrentWeather`: either a classified
`*Error` or a raw unclassified Go error (as returned by `ctx.Err()`). -/
inductive FetchErr where
  | sdk : SdkError → FetchErr
  | raw : GoErr → FetchErr
deriving DecidableEq

/-- Whether a returned error is a classified `*Error` (extractable with
`errors.As(err, &apiErr)`). -/
def FetchErr.isClassified : FetchErr → Bool
  | .sdk _ => true
  | .raw _ => false

/-- Wall-clock instant as produced by parsing layout `2006-01-02T15:04`;
zoneless parse in Go yields UTC, so no zone is carried. -/
structure GoTime where
  year : Nat
  month : Nat
  day : Nat
  hour : Nat
  minute : Nat
deriving DecidableEq

/-- Go's zero `time.Time`: January 1, year 1, 00:00 UTC. -/
def GoTime.zero : GoTime := ⟨1, 1, 1, 0, 0⟩

/-- Leap-year rule used by Go's `time` package day-of-month validation. -/
def isLeapYear (y : Nat) : Bool :=
  y % 4 == 0 && (y % 100 != 0 || y % 400 == 0)

/-- Days in a month, as used by Go's `time.Parse` range check. -/
def daysIn (month year : Nat) : Nat :=
  if month == 2 then (if isLeapYear year then 29 else 28)
  else if month == 4 || month == 6 || month == 9 || month == 11 then 30
  else 31

/-- Numeric value of a decimal digit character. -/
def digitVal (c : Char) : Nat := c.toNat - 48

/-- Range checks Go's `time.Parse` applies after reading the fields. -/
def mkParsedTime (year month day hour minute : Nat) : Option GoTime :=
  if 1 ≤ month && month ≤ 12 && 1 ≤ day && day ≤ daysIn month year
      && hour ≤ 23 && minute ≤ 59 then
    some ⟨year, month, day, hour, minute⟩
  else
    none

/-- Model of `time.Parse("2006-01-02T15:04", s)`: four-digit year,
two-digit month and day, `T`, one- or two-digit hour (the `15` verb accepts
both), colon, two-digit minute, nothing after, then range validation.
(Go additionally accepts signed years; no claim depends on that.) -/
def timeParseMinuteLayout (s : String) : Option GoTime :=
  match s.data with
  | [y1, y2, y3, y4, c1, m1, m2, c2, d1, d2, ct, h1, h2, cc, n1, n2] =>
      if y1.isDigit && y2.isDigit && y3.isDigit && y4.isDigit
          && c1 == '-' && m1.isDigit && m2.isDigit
          && c2 == '-' && d1.isDigit && d2.isDigit
          && ct == 'T' && h1.isDigit && h2.isDigit
          && cc == ':' && n1.isDigit && n2.isDigit then
        mkParsedTime
          (digitVal y1 * 1000 + digitVal y2 * 100 + digitVal y3 * 10 + digitVal y4)
          (digitVal m1 * 10 + digitVal m2)
          (digitVal d1 * 10 + digitVal d2)
          (digitVal h1 * 10 + digitVal h2)
          (digitVal n1 * 10 + digitVal n2)
      else none
  | [y1, y2, y3, y4, c1, m1, m2, c2, d1, d2, ct, h1, cc, n1, n2] =>
      if y1.isDigit && y2.isDigit && y3.isDigit && y4.isDigit
          && c1 == '-' && m1.isDigit && m2.isDigit
          && c2 == '-' && d1.isDigit && d2.isDigit
          && ct == 'T' && h1.isDigit
          && cc == ':' && n1.isDigit && n2.isDigit then
        mkParsedTime
          (digitVal y1 * 1000 + digitVal y2 * 100 + digitVal y3 * 10 + digitVal y4)
          (digitVal m1 * 10 + digitVal m2)
          (digitVal d1 * 10 + digitVal d2)
          (digitVal h1)
          (digitVal n1 * 10 + digitVal n2)
      else none
  | _ => none

/-- `currentWeatherResponse` from `weather.go`: the nullable `current`
block of the wire payload, pointer fields modelled as `Option`. -/
structure currentWeatherResponse where
  time : Option String
  temperature : Option GoFloat
  windspeed : Option GoFloat
  winddirection : Option GoFloat
  weathercode : Option Int
  isDay : Option Int
  relativeHumidity : Option GoFloat
  apparentTemperature : Option GoFloat
  precipitation : Option GoFloat
  rain : Option GoFloat
  showers : Option GoFloat
  snowfall : Option GoFloat
  cloudCover : Option GoFloat
  pressureMSL : Option GoFloat
  surfacePressure : Option GoFloat
  windGusts : Option GoFloat
deriving DecidableEq

/-- `weatherResponse` from `weather.go`: decoded top level of the wire
payload (`latitude`, `longitude`, `current`). -/
structure weatherResponse where
  latitude : GoFloat
  longitude : GoFloat
  currentWeather : currentWeatherResponse
deriving DecidableEq

/-- `CurrentWeather` from `weather.go`: the fully-populated domain
snapshot, all fields value-typed. -/
structure CurrentWeather where
  latitude : GoFloat
  longitude : GoFloat
  time : GoTime
  temperature : GoFloat
  relativeHumidity : GoFloat
  apparentTemperature : GoFloat
  isDay : Bool
  precipitation : GoFloat
  rain : GoFloat
  showers : GoFloat
  snowfall : GoFloat
  weatherCode : Int
  cloudCover : GoFloat
  pressureMSL : GoFloat
  surfacePressure : GoFloat
  windSpeed : GoFloat
  windDirection : GoFloat
  windGusts : GoFloat
deriving DecidableEq

/-- `convertToCurrentWeather` from `client.go`: null-tolerant conversion of
the wire response to the domain snapshot; `nil` pointers become zero
values, the timestamp is parsed with the minute layout (zero time on
absence or parse failure), `is_day` becomes `true` exactly on value 1. -/
def convertToCurrentWeather (apiResp : weatherResponse) : CurrentWeather :=
  { latitude := apiResp.latitude
    longitude := apiResp.longitude
    time :=
      match apiResp.currentWeather.time with
      | some s =>
          match timeParseMinuteLayout s with
          | some t => t
          | none => GoTime.zero
      | none => GoTime.zero
    temperature :=
      match apiResp.currentWeather.temperature with
      | some v => v
      | none => .val 0
    relativeHumidity :=
      match apiResp.currentWeather.relativeHumidity with
      | some v => v
      | none => .val 0
    apparentTemperature :=
      match apiResp.currentWeather.apparentTemperature with
      | some v => v
      | none => .val 0
    isDay :=
      match apiResp.currentWeather.isDay with
      | some v => v == 1
      | none => false
    precipitation :=
      match apiResp.currentWeather.precipitation with
      | some v => v
      | none => .val 0
    rain :=
      match apiResp.currentWeather.rain with
      | some v => v
      | none => .val 0
    showers :=
      match apiResp.currentWeather.showers with
      | some v => v
      | none => .val 0
    snowfall :=
      match apiResp.currentWeather.snowfall with
      | some v => v
      | none => .val 0
    weatherCode :=
      match apiResp.currentWeather.weathercode with
      | some v => v
      | none => 0
    cloudCover :=
      match apiResp.currentWeather.cloudCover with
      | some v => v
      | none => .val 0
    pressureMSL :=
      match apiResp.currentWeather.pressureMSL with
      | some v => v
      | none => .val 0
    surfacePressure :=
      match apiResp.currentWeather.surfacePressure with
      | some v => v
      | none => .val 0
    windSpeed :=
      match apiResp.currentWeather.windspeed with
      | some v => v
      | none => .val 0
    windDirection :=
      match apiResp.currentWeather.winddirection with
      | some v => v
      | none => .val 0
    windGusts :=
      match apiResp.currentWeather.windGusts with
      | some v => v
      | none => .val 0 }

/-- Left-pad a string with zeros to the given width. -/
def padZeros (s : String) (w : Nat) : String :=
  String.mk (List.replicate (w - s.length) '0') ++ s

/-- Least number of decimal places needed to write a rational with
denominator `d` exactly (searched up to 64; every finite double terminates
well before that). -/
def decimalScale (d : Nat) : Nat :=
  (((List.range 65).find? (fun k => 10 ^ k % d == 0)).getD 64)

/-- Exact decimal rendering of the rational `a / d` (`d ≠ 0`, terminating
expansion; no trailing zeros, no decimal point for integers). -/
def fmtPosDecimal (a d : Nat) : String :=
  let k := decimalScale d
  let n := a * (10 ^ k / d)
  if k == 0 then toString n
  else toString (n / 10 ^ k) ++ "." ++ padZeros (toString (n % 10 ^ k)) k

/-- Model of `strconv.FormatFloat(f, 'f', -1, 64)`: shortest decimal form.
On the exact-rational model of doubles the shortest round-tripping decimal
is the exact terminating expansion. -/
def formatFloatShortest : GoFloat → String
  | .nan => "NaN"
  | .inf => "+Inf"
  | .negInf => "-Inf"
  | .val q =>
      (if q.num < 0 then "-" else "") ++ fmtPosDecimal q.num.natAbs q.den

/-- Model of `fmt.Sprintf("%.2f", f)`: fixed two decimal places, rounding
half up on the magnitude (no theorem depends on the tie-breaking rule). -/
def fmtF2 : GoFloat → String
  | .nan => "NaN"
  | .inf => "+Inf"
  | .negInf => "-Inf"
  | .val q =>
      let sign := if q.num < 0 then "-" else ""
      let n := (q.num.natAbs * 100 * 2 + q.den) / (2 * q.den)
      sign ++ toString (n / 100) ++ "." ++ padZeros (toString (n % 100)) 2

/-- Byte-order comparison of strings, as `url.Values.Encode` sorts keys. -/
def strLeB (a b : String) : Bool :=
  let rec go : List Char → List Char → Bool
    | [], _ => true
    | _ :: _, [] => false
    | x :: xs, y :: ys =>
        if x == y then go xs ys else decide (x.toNat < y.toNat)
  go a.data b.data

/-- Insert a key/value pair into a key-sorted list (stable). -/
def insertByKey (p : String × String) : List (String × String) → List (String × String)
  | [] => [p]
  | q :: rest =>
      if strLeB q.1 p.1 then q :: insertByKey p rest else p :: q :: rest

/-- Sort parameters by key, as `url.Values.Encode` does. -/
def sortByKey : List (String × String) → List (String × String)
  | [] => []
  | p :: rest => insertByKey p (sortByKey rest)

/-- Percent-escape one character for a query component (Go
`url.QueryEscape` semantics for the ASCII range used here; space would
become `+`, unreserved characters stay). -/
def queryEscapeChar (c : Char) : String :=
  if c.isAlphanum || c == '-' || c == '_' || c == '.' || c == '~' then
    String.mk [c]
  else if c == ' ' then "+"
  else
    let hex := fun (n : Nat) =>
      if n < 10 then Char.ofNat (48 + n) else Char.ofNat (55 + n)
    String.mk ['%', hex (c.toNat / 16 % 16), hex (c.toNat % 16)]

/-- Percent-escape a query component. -/
def queryEscape (s : String) : String :=
  s.data.foldl (fun acc c => acc ++ queryEscapeChar c) ""

/-- Model of `url.Values.Encode()`: keys sorted, `key=value` joined by
ampersands, values escaped. -/
def encodeQuery (params : List (String × String)) : String :=
  String.intercalate "&"
    ((sortByKey params).map (fun p => p.1 ++ "=" ++ queryEscape p.2))

/-- `maxConcurrent` from `client.go`. -/
def maxConcurrent : Nat := 10

/-- `defaultBaseURL` from `client.go`. -/
def defaultBaseURL : String := "https://api.open-meteo.com/v1"

/-- The `Client` configuration relevant to request construction; the
transport handle carries no observable data for these claims and the
semaphore is threaded explicitly as a slot count. -/
structure Client where
  baseURL : String

/-- A client as produced by `NewClient()` with no options. -/
def defaultClient : Client := { baseURL := defaultBaseURL }

/-- The query parameters `buildRequestURL` sets, in `q.Set` order. -/
def requestQueryParams (latitude longitude : GoFloat) : List (String × String) :=
  [("latitude", formatFloatShortest latitude),
   ("longitude", formatFloatShortest longitude),
   ("current_weather", "true"),
   ("temperature_unit", "celsius"),
   ("windspeed_unit", "ms"),
   ("precipitation_unit", "mm")]

/-- `buildRequestURL` from `client.go`.  `url.Parse` succeeds on every base
URL free of control characters and the default base carries no query, so
the model is total: path appended, encoded query attached. -/
def buildRequestURL (c : Client) (latitude longitude : GoFloat) : String :=
  c.baseURL ++ "/forecast?" ++ encodeQuery (requestQueryParams latitude longitude)

/-- Caller-supplied context state: whether `ctx.Done()` is closed and the
error `ctx.Err()` would return then. -/
structure Ctx where
  done : Bool
  errv : GoErr

/-- External effects consumed by one call once it reaches the network
stage: request-creation outcome, transport outcome, HTTP status, raw body,
and the JSON decode result of the body. -/
structure HttpEnv where
  reqCreateErr : Option GoErr
  transportErr : Option GoErr
  status : Nat
  body : String
  decoded : Except GoErr weatherResponse

/-- Full environment of one call: context, select tie-break oracle (used
only when both the semaphore send and `ctx.Done()` are ready), network
effects. -/
structure Env where
  ctx : Ctx
  selectPick : Bool
  http : HttpEnv

/-- Outcome of the admission `select` in `GetCurrentWeather`. -/
inductive AcqOutcome where
  | acquired : AcqOutcome
  | ctxDone : AcqOutcome
  | limitExceeded : AcqOutcome
deriving DecidableEq

/-- The admission `select`: the semaphore send is ready iff fewer than
`maxConcurrent` slots are held, the context case is ready iff the context
is done; with both ready Go picks uniformly (oracle bit); with neither the
`default` branch runs. -/
def semAcquire (held : Nat) (env : Env) : AcqOutcome :=
  if held < maxConcurrent then
    (if env.ctx.done then
      (if env.selectPick then .acquired else .ctxDone)
     else .acquired)
  else if env.ctx.done then .ctxDone
  else .limitExceeded

/-- The invalid-latitude test `latitude < -90 || latitude > 90`
(constants written with `mkRat` so the kernel can evaluate them). -/
def invalidLatB (latitude : GoFloat) : Bool :=
  GoFloat.lt latitude (.val (mkRat (-90) 1)) || GoFloat.gt latitude (.val (mkRat 90 1))

/-- The invalid-longitude test `longitude < -180 || longitude > 180`. -/
def invalidLonB (longitude : GoFloat) : Bool :=
  GoFloat.lt longitude (.val (mkRat (-180) 1)) || GoFloat.gt longitude (.val (mkRat 180 1))

/-- The invalid-latitude `Validation` error value. -/
def latErr (latitude : GoFloat) : SdkError :=
  ⟨.validation,
   "invalid latitude: " ++ fmtF2 latitude ++ " (must be between -90 and 90)",
   none⟩

/-- The invalid-longitude `Validation` error value. -/
def lonErr (longitude : GoFloat) : SdkError :=
  ⟨.validation,
   "invalid longitude: " ++ fmtF2 longitude ++ " (must be between -180 and 180)",
   none⟩

/-- The concurrency-limit `Validation` error value. -/
def limitErr : SdkError :=
  ⟨.validation,
   "concurrent request limit exceeded (" ++ toString maxConcurrent ++ ")",
   none⟩

/-- The `Upstream`/API error message for a non-200 status. -/
def apiStatusMsg (status : Nat) (body : String) : String :=
  "API returned status " ++ toString status ++ ": " ++ body

/-- The network stage of `GetCurrentWeather`, after a slot is acquired:
create request, execute, check status, decode, convert.  The URL step is
`buildRequestURL` (recorded in the outcome), total here: its Go error path
needs an unparseable base URL, so the failed-URL `Validation` branch is
unreachable. -/
def doRequest (h : HttpEnv) : Except FetchErr CurrentWeather :=
  match h.reqCreateErr with
  | some e => .error (.sdk ⟨.network, "failed to create HTTP request", some e⟩)
  | none =>
      match h.transportErr with
      | some e => .error (.sdk ⟨.network, "failed to execute HTTP request", some e⟩)
      | none =>
          if h.status ≠ 200 then
            .error (.sdk ⟨.api, apiStatusMsg h.status h.body, none⟩)
          else
            match h.decoded with
            | .error e => .error (.sdk ⟨.api, "failed to parse JSON response", some e⟩)
            | .ok apiResp => .ok (convertToCurrentWeather apiResp)

instance {ε α : Type} [DecidableEq ε] [DecidableEq α] : DecidableEq (Except ε α) := fun a b =>
  match a, b with
  | .error x, .error y =>
      if h : x = y then .isTrue (congrArg Except.error h)
      else .isFalse (fun hh => h (Except.error.inj hh))
  | .error _, .ok _ => .isFalse (fun hh => Except.noConfusion hh)
  | .ok _, .error _ => .isFalse (fun hh => Except.noConfusion hh)
  | .ok x, .ok y =>
      if h : x = y then .isTrue (congrArg Except.ok h)
      else .isFalse (fun hh => h (Except.ok.inj hh))

/-- Observable outcome of one `GetCurrentWeather` call: the returned value
or error, the slot count while the body ran, the slot count after the call
returned (the deferred release has run), and whether `httpClient.Do` was
reached. -/
structure FetchOutcome where
  result : Except FetchErr CurrentWeather
  semDuring : Nat
  semAfter : Nat
  networkCalled : Bool
  requestURL : Option String
deriving DecidableEq

/-- The admission stage onward: `select` over semaphore send, context
done, and a `default` fail-fast branch; on acquisition the deferred
release restores the slot count on every exit path. -/
def postValidation (c : Client) (env : Env) (held : Nat)
    (latitude longitude : GoFloat) : FetchOutcome :=
  match semAcquire held env with
  | .acquired =>
      { result := doRequest env.http
        semDuring := held + 1
        semAfter := held + 1 - 1
        networkCalled := env.http.reqCreateErr == none
        requestURL := some (buildRequestURL c latitude longitude) }
  | .ctxDone =>
      { result := .error (.raw env.ctx.errv)
        semDuring := held
        semAfter := held
        networkCalled := false
        requestURL := none }
  | .limitExceeded =>
      { result := .error (.sdk limitErr)
        semDuring := held
        semAfter := held
        networkCalled := false
        requestURL := none }

/-- `GetCurrentWeather` from `client.go`: coordinate validation, admission
control, then the network stage.  `held` is the number of semaphore slots
occupied by other in-flight calls when this call runs. -/
def GetCurrentWeather (c : Client) (env : Env) (held : Nat)
    (latitude longitude : GoFloat) : FetchOutcome :=
  if invalidLatB latitude then
    { result := .error (.sdk (latErr latitude))
      semDuring := held
      semAfter := held
      networkCalled := false
      requestURL := none }
  else if invalidLonB longitude then
    { result := .error (.sdk (lonErr longitude))
      semDuring := held
      semAfter := held
      networkCalled := false
      requestURL := none }
  else
    postValidation c env held latitude longitude

/-! Helper lemmas shared by the claim theorems. -/

theorem GoFloat.lt_val_val (a b : ℚ) :
    GoFloat.lt (.val a) (.val b) = decide (a < b) := rfl

theorem mkRat_n90 : (mkRat (-90) 1 : ℚ) = -90 := by
  norm_num [Rat.mkRat_eq_div]

theorem mkRat_p90 : (mkRat 90 1 : ℚ) = 90 := by
  norm_num [Rat.mkRat_eq_div]

theorem mkRat_n180 : (mkRat (-180) 1 : ℚ) = -180 := by
  norm_num [Rat.mkRat_eq_div]

theorem mkRat_p180 : (mkRat 180 1 : ℚ) = 180 := by
  norm_num [Rat.mkRat_eq_div]

theorem invalidLatB_val_iff (q : ℚ) :
    invalidLatB (.val q) = true ↔ (q < -90 ∨ 90 < q) := by
  simp [invalidLatB, GoFloat.gt, GoFloat.lt_val_val, mkRat_n90, mkRat_p90]

theorem invalidLonB_val_iff (q : ℚ) :
    invalidLonB (.val q) = true ↔ (q < -180 ∨ 180 < q) := by
  simp [invalidLonB, GoFloat.gt, GoFloat.lt_val_val, mkRat_n180, mkRat_p180]

theorem invalidLatB_val_false {q : ℚ} (h1 : -90 ≤ q) (h2 : q ≤ 90) :
    invalidLatB (.val q) = false := by
  rw [Bool.eq_false_iff]
  intro h
  rcases (invalidLatB_val_iff q).mp h with h3 | h3
  · exact absurd h1 (not_le.mpr h3)
  · exact absurd h2 (not_le.mpr h3)

theorem invalidLonB_val_false {q : ℚ} (h1 : -180 ≤ q) (h2 : q ≤ 180) :
    invalidLonB (.val q) = false := by
  rw [Bool.eq_false_iff]
  intro h
  rcases (invalidLonB_val_iff q).mp h with h3 | h3
  · exact absurd h1 (not_le.mpr h3)
  · exact absurd h2 (not_le.mpr h3)

theorem invalidLatB_nan : invalidLatB .nan = false := rfl

theorem invalidLonB_nan : invalidLonB .nan = false := rfl

theorem semAcquire_acquired_lt {held : Nat} {env : Env}
    (h : semAcquire held env = .acquired) : held < maxConcurrent := by
  by_cases h1 : held < maxConcurrent
  · exact h1
  · exfalso
    unfold semAcquire at h
    rw [if_neg h1] at h
    split at h
    · cases h
    · cases h

theorem semAcquire_ctxDone_done {held : Nat} {env : Env}
    (h : semAcquire held env = .ctxDone) : env.ctx.done = true := by
  unfold semAcquire at h
  split at h
  · split at h
    · split at h
      · cases h
      · assumption
    · cases h
  · split at h
    · assumption
    · cases h

theorem semAcquire_full_live (env : Env) (hd : env.ctx.done = false) :
    semAcquire maxConcurrent env = .limitExceeded := by
  unfold semAcquire
  rw [if_neg (lt_irrefl maxConcurrent)]
  simp [hd]

theorem semAcquire_full_done (env : Env) (held : Nat)
    (hheld : ¬ held < maxConcurrent) (hd : env.ctx.done = true) :
    semAcquire held env = .ctxDone := by
  unfold semAcquire
  rw [if_neg hheld]
  simp [hd]

theorem doRequest_error_sdk {h : HttpEnv} {e : FetchErr}
    (he : doRequest h = .error e) : ∃ se, e = .sdk se := by
  unfold doRequest at he
  split at he
  · exact ⟨_, (Except.error.inj he).symm⟩
  · split at he
    · exact ⟨_, (Except.error.inj he).symm⟩
    · split at he
      · exact ⟨_, (Except.error.inj he).symm⟩
      · split at he
        · exact ⟨_, (Except.error.inj he).symm⟩
        · exact Except.noConfusion he

theorem errorType_cases (t : ErrorType) :
    t = .validation ∨ t = .network ∨ t = .api := by
  cases t
  · exact Or.inl rfl
  · exact Or.inr (Or.inl rfl)
  · exact Or.inr (Or.inr rfl)

/-- Substring containment, expressed on the underlying character lists. -/
def strContains (hay needle : String) : Prop :=
  ∃ pre post, hay.data = pre ++ needle.data ++ post

theorem apiStatusMsg_contains_status (status : Nat) (body : String) :
    strContains (apiStatusMsg status body) (toString status) := by
  refine ⟨"API returned status ".data, (": " ++ body).data, ?_⟩
  simp [apiStatusMsg, String.data_append]

theorem apiStatusMsg_contains_body (status : Nat) (body : String) :
    strContains (apiStatusMsg status body) body := by
  refine ⟨("API returned status " ++ toString status ++ ": ").data, [], ?_⟩
  simp [apiStatusMsg, String.data_append]

/-! Shared concrete environments for witnesses and counterexamples. -/

/-- An HTTP environment whose contents are never reached in the scenarios
that use it. -/
def trivialHttp : HttpEnv := ⟨none, none, 200, "", .error (.other "json")⟩

/-- A live (non-cancelled) context environment. -/
def liveEnv : Env := ⟨⟨false, .ctxCanceled⟩, true, trivialHttp⟩

/-- An environment whose context is already cancelled. -/
def cancelledEnv : Env := ⟨⟨true, .ctxCanceled⟩, true, trivialHttp⟩

/-! ## C1 -/

/-- C1 (amended): every failure returned by `GetCurrentWeather` is either a
classified error of one of the three kinds (Validation, Network, API), or
it is the raw context error returned on the admission-stage cancellation
path — with the context already done — which identifies cancellation
directly as `ctx.Err()` rather than through a classified wrapper. -/
theorem C1_fetch_errors_classified_except_ctx
    (c : Client) (env : Env) (held : Nat) (lat lon : GoFloat) (e : FetchErr)
    (he : (GetCurrentWeather c env held lat lon).result = .error e) :
    (∃ se, e = .sdk se ∧
        (se.type = .validation ∨ se.type = .network ∨ se.type = .api)) ∨
    (e = .raw env.ctx.errv ∧ env.ctx.done = true) := by
  unfold GetCurrentWeather at he
  split at he
  · exact Or.inl ⟨latErr lat, (Except.error.inj he).symm, Or.inl rfl⟩
  · split at he
    · exact Or.inl ⟨lonErr lon, (Except.error.inj he).symm, Or.inl rfl⟩
    · unfold postValidation at he
      split at he
      · obtain ⟨se, hse⟩ := doRequest_error_sdk he
        exact Or.inl ⟨se, hse, errorType_cases se.type⟩
      · rename_i heq
        exact Or.inr ⟨(Except.error.inj he).symm, semAcquire_ctxDone_done heq⟩
      · exact Or.inl ⟨limitErr, (Except.error.inj he).symm, Or.inl rfl⟩

/-- C1 counterexample: with all 10 slots held and the context already
cancelled, the call returns the raw `ctx.Err()` value — not a classified
error of any of the three kinds. -/
theorem C1_counterexample_raw_ctx_error :
    (GetCurrentWeather defaultClient cancelledEnv 10
        (.val (mkRat 1313 25)) (.val (mkRat 1341 100))).result
      = .error (.raw .ctxCanceled) ∧
    FetchErr.isClassified (.raw .ctxCanceled) = false :=
  ⟨by decide, rfl⟩

/-- C1 witness: the amended classification theorem applied at a concrete
out-of-range call. -/
theorem C1_witness_classified :
    (∃ se, FetchErr.sdk (latErr (.val (mkRat 100 1))) = .sdk se ∧
        (se.type = .validation ∨ se.type = .network ∨ se.type = .api)) ∨
    (FetchErr.sdk (latErr (.val (mkRat 100 1))) = .raw .ctxCanceled ∧
        (false : Bool) = true) :=
  C1_fetch_errors_classified_except_ctx defaultClient liveEnv 0
    (.val (mkRat 100 1)) (.val (mkRat 0 1))
    (.sdk (latErr (.val (mkRat 100 1)))) (by decide)

/-! ## C2 -/

/-- C2: the admission pool has fixed capacity 10; the slot count while a
call runs never exceeds 10; a call finding all 10 slots held with a live
context returns the limit-exceeded `Validation` error immediately, with no
network I/O and no blocking (the embedding is a total function); and the
slot count after every call equals the count before it — the acquired slot
is released on every exit path. -/
theorem C2_admission_pool :
    maxConcurrent = 10 ∧
    (∀ (c : Client) (env : Env) (held : Nat) (lat lon : GoFloat),
        held ≤ maxConcurrent →
        (GetCurrentWeather c env held lat lon).semDuring ≤ maxConcurrent) ∧
    (∀ (c : Client) (env : Env) (lat lon : GoFloat),
        env.ctx.done = false →
        invalidLatB lat = false → invalidLonB lon = false →
        GetCurrentWeather c env maxConcurrent lat lon =
          { result := .error (.sdk limitErr)
            semDuring := maxConcurrent
            semAfter := maxConcurrent
            networkCalled := false
            requestURL := none } ∧
        limitErr =
          ⟨.validation, "concurrent request limit exceeded (10)", none⟩) ∧
    (∀ (c : Client) (env : Env) (held : Nat) (lat lon : GoFloat),
        (GetCurrentWeather c env held lat lon).semAfter = held) := by
  refine ⟨rfl, ?_, ?_, ?_⟩
  · intro c env held lat lon hle
    unfold GetCurrentWeather
    split
    · exact hle
    · split
      · exact hle
      · unfold postValidation
        split
        · rename_i heq
          exact semAcquire_acquired_lt heq
        · exact hle
        · exact hle
  · intro c env lat lon hd hlat hlon
    refine ⟨?_, by decide⟩
    unfold GetCurrentWeather
    simp only [hlat, hlon, Bool.false_eq_true, if_false]
    unfold postValidation
    rw [semAcquire_full_live env hd]
  · intro c env held lat lon
    unfold GetCurrentWeather
    split
    · rfl
    · split
      · rfl
      · unfold postValidation
        split
        · exact Nat.add_sub_cancel (held) 1
        · rfl
        · rfl

/-- C2 witness: the fail-fast conjunct applied with all slots held, a live
context and valid coordinates. -/
theorem C2_witness_limit_exceeded :
    GetCurrentWeather defaultClient liveEnv maxConcurrent
        (.val (mkRat 1313 25)) (.val (mkRat 1341 100)) =
      { result := .error (.sdk limitErr)
        semDuring := maxConcurrent
        semAfter := maxConcurrent
        networkCalled := false
        requestURL := none } ∧
    limitErr = ⟨.validation, "concurrent request limit exceeded (10)", none⟩ :=
  C2_admission_pool.2.2.1 defaultClient liveEnv
    (.val (mkRat 1313 25)) (.val (mkRat 1341 100))
    rfl (by decide) (by decide)

/-! ## C3 -/

/-- C3: coordinate validation fails exactly off-range: every latitude in
[-90, 90] and longitude in [-180, 180] (boundaries included) passes
validation and the call proceeds to the admission stage; an out-of-range
latitude (or longitude) yields the corresponding `Validation` error with no
network call attempted. -/
theorem C3_coordinate_validation :
    (∀ (lq nq : ℚ) (c : Client) (env : Env) (held : Nat),
        -90 ≤ lq → lq ≤ 90 → -180 ≤ nq → nq ≤ 180 →
        invalidLatB (.val lq) = false ∧ invalidLonB (.val nq) = false ∧
        GetCurrentWeather c env held (.val lq) (.val nq)
          = postValidation c env held (.val lq) (.val nq)) ∧
    (∀ (lq : ℚ) (lon : GoFloat) (c : Client) (env : Env) (held : Nat),
        lq < -90 ∨ 90 < lq →
        (GetCurrentWeather c env held (.val lq) lon).result
            = .error (.sdk (latErr (.val lq))) ∧
        (latErr (.val lq)).type = .validation ∧
        (GetCurrentWeather c env held (.val lq) lon).networkCalled = false) ∧
    (∀ (nq : ℚ) (lat : GoFloat) (c : Client) (env : Env) (held : Nat),
        invalidLatB lat = false →
        nq < -180 ∨ 180 < nq →
        (GetCurrentWeather c env held lat (.val nq)).result
            = .error (.sdk (lonErr (.val nq))) ∧
        (lonErr (.val nq)).type = .validation ∧
        (GetCurrentWeather c env held lat (.val nq)).networkCalled = false) := by
  refine ⟨?_, ?_, ?_⟩
  · intro lq nq c env held h1 h2 h3 h4
    have hlat := invalidLatB_val_false h1 h2
    have hlon := invalidLonB_val_false h3 h4
    refine ⟨hlat, hlon, ?_⟩
    unfold GetCurrentWeather
    simp only [hlat, hlon, Bool.false_eq_true, if_false]
  · intro lq lon c env held h
    have hlat : invalidLatB (.val lq) = true := (invalidLatB_val_iff lq).mpr h
    refine ⟨?_, rfl, ?_⟩
    · unfold GetCurrentWeather
      simp only [hlat, if_true]
    · unfold GetCurrentWeather
      simp only [hlat, if_true]
  · intro nq lat c env held hlat h
    have hlon : invalidLonB (.val nq) = true := (invalidLonB_val_iff nq).mpr h
    refine ⟨?_, rfl, ?_⟩
    · unfold GetCurrentWeather
      simp only [hlat, hlon, Bool.false_eq_true, if_false, if_true]
    · unfold GetCurrentWeather
      simp only [hlat, hlon, Bool.false_eq_true, if_false, if_true]

/-- C3 witness: boundary coordinates (90, -180) and (-90, 180) pass
validation; latitude 91 and longitude 181 are rejected with a `Validation`
error and no network call. -/
theorem C3_witness_boundaries :
    (invalidLatB (.val 90) = false ∧ invalidLonB (.val (-180)) = false ∧
     GetCurrentWeather defaultClient liveEnv 0 (.val 90) (.val (-180))
       = postValidation defaultClient liveEnv 0 (.val 90) (.val (-180))) ∧
    (invalidLatB (.val (-90)) = false ∧ invalidLonB (.val 180) = false ∧
     GetCurrentWeather defaultClient liveEnv 0 (.val (-90)) (.val 180)
       = postValidation defaultClient liveEnv 0 (.val (-90)) (.val 180)) ∧
    ((GetCurrentWeather defaultClient liveEnv 0 (.val 91) (.val 0)).result
       = .error (.sdk (latErr (.val 91))) ∧
     (latErr (.val 91)).type = .validation ∧
     (GetCurrentWeather defaultClient liveEnv 0 (.val 91) (.val 0)).networkCalled
       = false) ∧
    ((GetCurrentWeather defaultClient liveEnv 0 (.val 0) (.val 181)).result
       = .error (.sdk (lonErr (.val 181))) ∧
     (lonErr (.val 181)).type = .validation ∧
     (GetCurrentWeather defaultClient liveEnv 0 (.val 0) (.val 181)).networkCalled
       = false) :=
  ⟨C3_coordinate_validation.1 90 (-180) defaultClient liveEnv 0
      (by norm_num) (by norm_num) (by norm_num) (by norm_num),
   C3_coordinate_validation.1 (-90) 180 defaultClient liveEnv 0
      (by norm_num) (by norm_num) (by norm_num) (by norm_num),
   C3_coordinate_validation.2.1 91 (.val 0) defaultClient liveEnv 0
      (by norm_num),
   C3_coordinate_validation.2.2 181 (.val 0) defaultClient liveEnv 0
      (invalidLatB_val_false (by norm_num) (by norm_num)) (by norm_num)⟩

/-! ## C4 -/

/-- C4 (code bug in `buildRequestURL`): the URL built for the documented
example coordinates (52.52, 13.41) carries `current_weather=true` and no
`current` parameter at all — the 15-field comma-joined enumeration required
by the spec, by the repository's own success test and by its API contract
document is absent (and the wind unit key is `windspeed_unit`, not
`wind_speed_unit`). -/
theorem C4_buildRequestURL_missing_field_list :
    buildRequestURL defaultClient (.val (mkRat 1313 25)) (.val (mkRat 1341 100))
      = "https://api.open-meteo.com/v1/forecast?current_weather=true&latitude=52.52&longitude=13.41&precipitation_unit=mm&temperature_unit=celsius&windspeed_unit=ms" ∧
    (requestQueryParams (.val (mkRat 1313 25)) (.val (mkRat 1341 100))).lookup
        "current" = none ∧
    (requestQueryParams (.val (mkRat 1313 25)) (.val (mkRat 1341 100))).lookup
        "current_weather" = some "true" :=
  ⟨by decide, by decide, by decide⟩

/-! ## C5 -/

/-- The fully-populated wire response of the spec's round-trip property
(values as in the repository's success test; 1013.25 = 4053/4). -/
def roundTripWire : weatherResponse :=
  { latitude := .val (mkRat 1313 25)
    longitude := .val (mkRat 1341 100)
    currentWeather :=
      { time := some "2025-12-29T10:00"
        temperature := some (.val (mkRat 153 10))
        windspeed := some (.val (mkRat 25 2))
        winddirection := some (.val (mkRat 270 1))
        weathercode := some 3
        isDay := some 1
        relativeHumidity := some (.val (mkRat 65 1))
        apparentTemperature := some (.val (mkRat 141 10))
        precipitation := some (.val (mkRat 1 2))
        rain := some (.val (mkRat 3 10))
        showers := some (.val (mkRat 1 5))
        snowfall := some (.val (mkRat 0 1))
        cloudCover := some (.val (mkRat 75 1))
        pressureMSL := some (.val (mkRat 4053 4))
        surfacePressure := some (.val (mkRat 1010 1))
        windGusts := some (.val (mkRat 18 1)) } }

/-- C5: normalizing the fully-populated sample wire response yields the
snapshot exposing exactly those values unchanged, with the timestamp
parsed by the zoneless minute layout as 2025-12-29 10:00 (UTC in the
model's zone-free representation). -/
theorem C5_round_trip_identity :
    convertToCurrentWeather roundTripWire =
      { latitude := .val (mkRat 1313 25)
        longitude := .val (mkRat 1341 100)
        time := ⟨2025, 12, 29, 10, 0⟩
        temperature := .val (mkRat 153 10)
        relativeHumidity := .val (mkRat 65 1)
        apparentTemperature := .val (mkRat 141 10)
        isDay := true
        precipitation := .val (mkRat 1 2)
        rain := .val (mkRat 3 10)
        showers := .val (mkRat 1 5)
        snowfall := .val (mkRat 0 1)
        weatherCode := 3
        cloudCover := .val (mkRat 75 1)
        pressureMSL := .val (mkRat 4053 4)
        surfacePressure := .val (mkRat 1010 1)
        windSpeed := .val (mkRat 25 2)
        windDirection := .val (mkRat 270 1)
        windGusts := .val (mkRat 18 1) } ∧
    timeParseMinuteLayout "2025-12-29T10:00" = some ⟨2025, 12, 29, 10, 0⟩ :=
  ⟨by decide, by decide⟩

/-! ## C6 -/

/-- The wire response with every nullable `current` field null except
`time` and `temperature_2m`. -/
def minimalWire : weatherResponse :=
  { latitude := .val (mkRat 1313 25)
    longitude := .val (mkRat 1341 100)
    currentWeather :=
      { time := some "2025-12-29T10:00"
        temperature := some (.val (mkRat 153 10))
        windspeed := none
        winddirection := none
        weathercode := none
        isDay := none
        relativeHumidity := none
        apparentTemperature := none
        precipitation := none
        rain := none
        showers := none
        snowfall := none
        cloudCover := none
        pressureMSL := none
        surfacePressure := none
        windGusts := none } }

/-- C6: normalization is a total function of the wire response (defined
for every input, never an error): every present field is copied, every
absent field defaults to the zero value of its snapshot type (0 for
numerics and the weather code, `false` for the day flag, the zero time for
an absent or unparseable timestamp); and the minimal wire response yields
the given temperature with zeros everywhere else and a false day flag. -/
theorem C6_normalize_zero_defaults (resp : weatherResponse) :
    ((convertToCurrentWeather resp).latitude = resp.latitude ∧
     (convertToCurrentWeather resp).longitude = resp.longitude ∧
     (convertToCurrentWeather resp).time
       = (resp.currentWeather.time.bind timeParseMinuteLayout).getD GoTime.zero ∧
     (convertToCurrentWeather resp).temperature
       = resp.currentWeather.temperature.getD (.val 0) ∧
     (convertToCurrentWeather resp).relativeHumidity
       = resp.currentWeather.relativeHumidity.getD (.val 0) ∧
     (convertToCurrentWeather resp).apparentTemperature
       = resp.currentWeather.apparentTemperature.getD (.val 0) ∧
     (convertToCurrentWeather resp).isDay
       = (resp.currentWeather.isDay == some 1) ∧
     (convertToCurrentWeather resp).precipitation
       = resp.currentWeather.precipitation.getD (.val 0) ∧
     (convertToCurrentWeather resp).rain
       = resp.currentWeather.rain.getD (.val 0) ∧
     (convertToCurrentWeather resp).showers
       = resp.currentWeather.showers.getD (.val 0) ∧
     (convertToCurrentWeather resp).snowfall
       = resp.currentWeather.snowfall.getD (.val 0) ∧
     (convertToCurrentWeather resp).weatherCode
       = resp.currentWeather.weathercode.getD 0 ∧
     (convertToCurrentWeather resp).cloudCover
       = resp.currentWeather.cloudCover.getD (.val 0) ∧
     (convertToCurrentWeather resp).pressureMSL
       = resp.currentWeather.pressureMSL.getD (.val 0) ∧
     (convertToCurrentWeather resp).surfacePressure
       = resp.currentWeather.surfacePressure.getD (.val 0) ∧
     (convertToCurrentWeather resp).windSpeed
       = resp.currentWeather.windspeed.getD (.val 0) ∧
     (convertToCurrentWeather resp).windDirection
       = resp.currentWeather.winddirection.getD (.val 0) ∧
     (convertToCurrentWeather resp).windGusts
       = resp.currentWeather.windGusts.getD (.val 0)) ∧
    convertToCurrentWeather minimalWire =
      { latitude := .val (mkRat 1313 25)
        longitude := .val (mkRat 1341 100)
        time := ⟨2025, 12, 29, 10, 0⟩
        temperature := .val (mkRat 153 10)
        relativeHumidity := .val 0
        apparentTemperature := .val 0
        isDay := false
        precipitation := .val 0
        rain := .val 0
        showers := .val 0
        snowfall := .val 0
        weatherCode := 0
        cloudCover := .val 0
        pressureMSL := .val 0
        surfacePressure := .val 0
        windSpeed := .val 0
        windDirection := .val 0
        windGusts := .val 0 } := by
  obtain ⟨lat, lon, cwr⟩ := resp
  obtain ⟨t, te, ws, wd, wc, isd, rh, ap, pr, ra, sh, sn, cc, pm, sp, wg⟩ := cwr
  refine ⟨⟨rfl, rfl, ?_, ?_, ?_, ?_, ?_, ?_, ?_, ?_, ?_, ?_, ?_, ?_, ?_, ?_, ?_,
      ?_⟩, by decide⟩
  · cases t with
    | none => rfl
    | some s => cases htp : timeParseMinuteLayout s <;>
        simp [convertToCurrentWeather, htp]
  · cases te <;> rfl
  · cases rh <;> rfl
  · cases ap <;> rfl
  · cases isd <;> rfl
  · cases pr <;> rfl
  · cases ra <;> rfl
  · cases sh <;> rfl
  · cases sn <;> rfl
  · cases wc <;> rfl
  · cases cc <;> rfl
  · cases pm <;> rfl
  · cases sp <;> rfl
  · cases ws <;> rfl
  · cases wd <;> rfl
  · cases wg <;> rfl

/-! ## C7 -/

/-- C7: the snapshot's day flag is `true` exactly when the wire `is_day`
field is present with integer value 1; any other present value, or an
absent field, yields `false`. -/
theorem C7_isDay_iff_one (resp : weatherResponse) :
    (convertToCurrentWeather resp).isDay = true ↔
      resp.currentWeather.isDay = some 1 := by
  obtain ⟨lat, lon, cwr⟩ := resp
  obtain ⟨t, te, ws, wd, wc, isd, rh, ap, pr, ra, sh, sn, cc, pm, sp, wg⟩ := cwr
  cases isd with
  | none => simp [convertToCurrentWeather]
  | some v =>
      show (v == 1) = true ↔ some v = some 1
      simp

/-! ## C8 -/

/-- C8: with a slot acquired, request creation and transport succeeding,
and a non-200 status, the call returns an API-classified (`Upstream`)
error whose message contains the numeric status code and the response body
text; no snapshot is returned. -/
theorem C8_non200_upstream (c : Client) (env : Env) (held : Nat)
    (lat lon : GoFloat)
    (hlat : invalidLatB lat = false) (hlon : invalidLonB lon = false)
    (hacq : semAcquire held env = .acquired)
    (hreq : env.http.reqCreateErr = none)
    (htr : env.http.transportErr = none)
    (hst : env.http.status ≠ 200) :
    (GetCurrentWeather c env held lat lon).result
      = .error (.sdk ⟨.api, apiStatusMsg env.http.status env.http.body, none⟩) ∧
    strContains (apiStatusMsg env.http.status env.http.body)
      (toString env.http.status) ∧
    strContains (apiStatusMsg env.http.status env.http.body) env.http.body := by
  refine ⟨?_, apiStatusMsg_contains_status _ _, apiStatusMsg_contains_body _ _⟩
  unfold GetCurrentWeather
  simp only [hlat, hlon, Bool.false_eq_true, if_false]
  unfold postValidation
  rw [hacq]
  show doRequest env.http = _
  unfold doRequest
  rw [hreq, htr, if_pos hst]

/-- The environment of a 500 response with body text. -/
def env500 : Env :=
  ⟨⟨false, .ctxCanceled⟩, true,
   ⟨none, none, 500, "Internal Server Error", .error (.other "json")⟩⟩

/-- C8 witness: the non-200 theorem applied to a concrete 500 response. -/
theorem C8_witness_500 :
    (GetCurrentWeather defaultClient env500 0
        (.val (mkRat 1313 25)) (.val (mkRat 1341 100))).result
      = .error (.sdk ⟨.api, apiStatusMsg 500 "Internal Server Error", none⟩) ∧
    strContains (apiStatusMsg 500 "Internal Server Error") (toString 500) ∧
    strContains (apiStatusMsg 500 "Internal Server Error")
      "Internal Server Error" :=
  C8_non200_upstream defaultClient env500 0
    (.val (mkRat 1313 25)) (.val (mkRat 1341 100))
    (by decide) (by decide) (by decide) rfl rfl (by decide)

/-! ## C9 -/

/-- C9: NaN coordinates pass coordinate validation (both range comparisons
are false for NaN), so the call does not fail with a coordinate
`Validation` error and proceeds to the admission stage; with a free slot
and request creation succeeding it issues the HTTP request, whose URL
encodes the NaN coordinate as `NaN`. -/
theorem C9_nan_passes_validation (c : Client) (env : Env) (held : Nat)
    (lat lon : GoFloat)
    (hlat : invalidLatB lat = false) (hlon : invalidLonB lon = false)
    (hacq : semAcquire held env = .acquired)
    (hreq : env.http.reqCreateErr = none) :
    invalidLatB .nan = false ∧ invalidLonB .nan = false ∧
    GetCurrentWeather c env held .nan lon
      = postValidation c env held .nan lon ∧
    GetCurrentWeather c env held lat .nan
      = postValidation c env held lat .nan ∧
    (GetCurrentWeather c env held .nan lon).networkCalled = true ∧
    (GetCurrentWeather c env held .nan lon).requestURL
      = some (buildRequestURL c .nan lon) ∧
    formatFloatShortest .nan = "NaN" := by
  refine ⟨rfl, rfl, ?_, ?_, ?_, ?_, rfl⟩
  · unfold GetCurrentWeather
    simp only [invalidLatB_nan, hlon, Bool.false_eq_true, if_false]
  · unfold GetCurrentWeather
    simp only [invalidLonB_nan, hlat, Bool.false_eq_true, if_false]
  · unfold GetCurrentWeather
    simp only [invalidLatB_nan, hlon, Bool.false_eq_true, if_false]
    unfold postValidation
    rw [hacq]
    show (env.http.reqCreateErr == none) = true
    rw [hreq]
    rfl
  · unfold GetCurrentWeather
    simp only [invalidLatB_nan, hlon, Bool.false_eq_true, if_false]
    unfold postValidation
    rw [hacq]

/-- C9 witness: NaN latitude with a free slot and live context reaches the
network stage. -/
theorem C9_witness_nan :
    invalidLatB .nan = false ∧ invalidLonB .nan = false ∧
    GetCurrentWeather defaultClient liveEnv 0 .nan (.val 0)
      = postValidation defaultClient liveEnv 0 .nan (.val 0) ∧
    GetCurrentWeather defaultClient liveEnv 0 (.val 0) .nan
      = postValidation defaultClient liveEnv 0 (.val 0) .nan ∧
    (GetCurrentWeather defaultClient liveEnv 0 .nan (.val 0)).networkCalled
      = true ∧
    (GetCurrentWeather defaultClient liveEnv 0 .nan (.val 0)).requestURL
      = some (buildRequestURL defaultClient .nan (.val 0)) ∧
    formatFloatShortest .nan = "NaN" :=
  C9_nan_passes_validation defaultClient liveEnv 0 (.val 0) (.val 0)
    (by decide) (by decide) (by decide) rfl

/-! ## C10 -/

/-- A decoded body whose echoed coordinates (52.52, 13.41) differ from the
request arguments. -/
def echoWire : weatherResponse :=
  { latitude := .val (mkRat 1313 25)
    longitude := .val (mkRat 1341 100)
    currentWeather :=
      ⟨none, none, none, none, none, none, none, none,
       none, none, none, none, none, none, none, none⟩ }

/-- An environment returning status 200 with `echoWire` as decoded body. -/
def echoEnv : Env := ⟨⟨false, .ctxCanceled⟩, true, ⟨none, none, 200, "", .ok echoWire⟩⟩

/-- C10: the snapshot's coordinates are copied from the decoded response
body, not from the caller-supplied arguments: the normalizer copies the
body's latitude/longitude for every wire response, and a call with
arguments (1, 2) whose decoded body echoes (52.52, 13.41) returns a
snapshot carrying the body's coordinates, not the inputs. -/
theorem C10_coords_from_body :
    (∀ resp : weatherResponse,
        (convertToCurrentWeather resp).latitude = resp.latitude ∧
        (convertToCurrentWeather resp).longitude = resp.longitude) ∧
    ((GetCurrentWeather defaultClient echoEnv 0 (.val 1) (.val 2)).result
        = .ok (convertToCurrentWeather echoWire) ∧
     (convertToCurrentWeather echoWire).latitude = .val (mkRat 1313 25) ∧
     (convertToCurrentWeather echoWire).longitude = .val (mkRat 1341 100) ∧
     (convertToCurrentWeather echoWire).latitude ≠ .val 1 ∧
     (convertToCurrentWeather echoWire).longitude ≠ .val 2) :=
  ⟨fun resp => ⟨rfl, rfl⟩,
   by decide, by decide, by decide, by decide, by decide⟩
